import Mathlib


/-!
# Transfer Settlement Engine — shallow embedding

A shallow embedding of the distributed banking system
(`src/server/bas_server.py`, `src/server/bdb_server.py`, `src/config.py`,
and the legacy top-level variants `src/bas_server.py` / `src/bdb_server.py`),
together with proofs about the claims of the natural-language specification.

Modelling conventions:
* Python floats carrying money amounts and timestamps are modelled as `ℚ`.
  All monetary values handled by the system carry 2-decimal precision, for
  which rational arithmetic agrees with the float arithmetic of the source.
* Python's `round(x, 2)` (round-half-to-even at 2 decimal places) is
  modelled by `round2`.
* Both wall clocks of the source (`time.time()` and `datetime.now()`) are
  modelled by a single rational timeline, passed explicitly to each
  operation that reads a clock.
* SQLite tables are modelled as Lean lists of records; `SELECT ... WHERE k = ?`
  with `fetchone()` is `fetchOne` (first match), `UPDATE ... WHERE k = ?` maps
  the update over all rows matching the key.  `AUTOINCREMENT` row ids are
  modelled by a `nextTransferId` counter in the database state.
* Uncaught-exception paths (network failures, SQL errors) do not occur in
  the embedding: every embedded operation is total and returns the value
  the source returns when no exception is raised.  Interpolated numeric
  values are elided from returned error-message strings.
-/

/-- Round-half-to-even to the nearest integer: the rounding mode of
Python's builtin `round` on exact values. -/
def roundHalfEven (q : ℚ) : ℤ :=
  if q - ⌊q⌋ < 1/2 then ⌊q⌋
  else if 1/2 < q - ⌊q⌋ then ⌊q⌋ + 1
  else if ⌊q⌋ % 2 = 0 then ⌊q⌋ else ⌊q⌋ + 1

/-- Python's `round(x, 2)`: round-half-to-even at two decimal places. -/

def round2 (q : ℚ) : ℚ := (roundHalfEven (q * 100) : ℚ) / 100

/-- A rational with (at most) 2-decimal precision: an exact number of
cents, the shape of every monetary value handled by the system. -/

def IsCents (q : ℚ) : Prop := ∃ n : ℤ, q = (n : ℚ) / 100

/-- Embeds `SELECT ... WHERE <p> LIMIT 1` with `cursor.fetchone()`: the first row
of the table satisfying the predicate, if any. -/

def fetchOne {α : Type} (p : α → Prop) [DecidablePred p] : List α → Option α
  | [] => none
  | x :: xs => if p x then some x else fetchOne p xs

/-- A row of the fee table `FEE_TIERS` of `src/config.py`.
`maxAmount = none` models the `float('inf')` upper bound of the last tier. -/

structure FeeTier where
  minAmount : ℚ
  maxAmount : Option ℚ
  percentage : ℚ
  cap : ℚ

/-- Embeds `FEE_TIERS` from `src/config.py`. -/

def FEE_TIERS : List FeeTier :=
  [ ⟨0, some 2000, 0, 0⟩,
    ⟨2000.01, some 10000, 0.0025, 20⟩,
    ⟨10000.01, some 20000, 0.0020, 25⟩,
    ⟨20000.01, some 50000, 0.00125, 40⟩,
    ⟨50000.01, some 100000, 0.0008, 50⟩,
    ⟨100000.01, none, 0.0005, 100⟩ ]

/-- The membership test `min_amount <= amount <= max_amount` of the loop in
`calculate_fee` (a comparison with the `float('inf')` upper bound of the
last tier is always true). -/

def inTier (t : FeeTier) (amount : ℚ) : Prop :=
  t.minAmount ≤ amount ∧
    match t.maxAmount with
    | some m => amount ≤ m
    | none => True

instance (t : FeeTier) (amount : ℚ) : Decidable (inTier t amount) := by
  unfold inTier; exact match t.maxAmount with
    | some _ => instDecidableAnd
    | none => instDecidableAnd

/-- The `for min_amount, max_amount, percentage, cap in FEE_TIERS` loop of
`calculate_fee`: the first tier containing the amount yields
`round(min(amount * percentage, cap), 2)`. -/

def feeLoop (amount : ℚ) : List FeeTier → Option ℚ
  | [] => none
  | t :: rest =>
    if inTier t amount then some (round2 (min (amount * t.percentage) t.cap))
    else feeLoop amount rest

/-- Embeds `BankApplicationServer.calculate_fee` (`src/server/bas_server.py`):
tiered fee with a per-tier percentage and cap, rounded to 2 decimals;
`0.00` for a non-positive amount (and after the loop falls through). -/

def calculate_fee (amount : ℚ) : ℚ :=
  if amount ≤ 0 then 0
  else (feeLoop amount FEE_TIERS).getD 0

structure User where
  user_id : ℤ
  username : String
  password_hash : String

/-- A row of the `accounts` table. -/

structure Account where
  account_id : ℤ
  user_id : ℤ
  balance : ℚ

/-- A row of the `transfers` table. -/

structure Transfer where
  transfer_id : ℤ
  from_account_id : ℤ
  to_account_id : ℤ
  amount : ℚ
  fee : ℚ
  status : String
  reference : String
  created_at : ℚ
  completed_at : Option ℚ

/-- A row of the `sessions` table. -/

structure Session where
  user_id : ℤ
  token : String
  expires_at : ℚ

/-- The persistent state owned by the BDB server (the SQLite database).
`nextTransferId` models the `AUTOINCREMENT` counter of `transfers`. -/

structure DB where
  users : List User
  accounts : List Account
  transfers : List Transfer
  sessions : List Session
  nextTransferId : ℤ

/-! ## BDB server operations (`src/server/bdb_server.py`) -/

/-- Embeds `get_user_by_username`: look up a user row by (unique) username. -/

def get_user_by_username (db : DB) (username : String) : Option User :=
  fetchOne (fun u => u.username = username) db.users

/-- Embeds `create_session`: insert a session row with the given expiry. -/

def create_session (db : DB) (user_id : ℤ) (token : String) (expires_at : ℚ) : DB :=
  { db with sessions := db.sessions ++ [⟨user_id, token, expires_at⟩] }

/-- Embeds `validate_session`: return the `user_id` of the session holding the
token if `datetime.now() < expires_at`, `None` otherwise. -/

def validate_session (db : DB) (token : String) (now : ℚ) : Option ℤ :=
  match fetchOne (fun s => s.token = token) db.sessions with
  | some s => if now < s.expires_at then some s.user_id else none
  | none => none

/-- Embeds `get_account_by_user_id`: account row owned by the user, if any. -/

def get_account_by_user_id (db : DB) (user_id : ℤ) : Option Account :=
  fetchOne (fun a => a.user_id = user_id) db.accounts

/-- Embeds `get_account_by_id`: account row with the given id, if any. -/

def get_account_by_id (db : DB) (account_id : ℤ) : Option Account :=
  fetchOne (fun a => a.account_id = account_id) db.accounts

/-- Embeds `UPDATE accounts SET balance = ? WHERE account_id = ?`
(used inside `settle_transfer_transaction`). -/

def setAccountBalance (db : DB) (account_id : ℤ) (b : ℚ) : DB :=
  { db with accounts :=
      db.accounts.map (fun a => if a.account_id = account_id then { a with balance := b } else a) }

/-- Embeds `create_transfer`: insert a transfer row with the given status and
return its `AUTOINCREMENT` id (`cursor.lastrowid`). -/

def create_transfer (db : DB) (from_account_id to_account_id : ℤ) (amount fee : ℚ)
    (reference status : String) (now : ℚ) : ℤ × DB :=
  (db.nextTransferId,
   { db with
       transfers := db.transfers ++
         [⟨db.nextTransferId, from_account_id, to_account_id, amount, fee, status,
           reference, now, none⟩],
       nextTransferId := db.nextTransferId + 1 })

/-- Embeds `get_transfer`: transfer row with the given id, if any. -/

def get_transfer (db : DB) (transfer_id : ℤ) : Option Transfer :=
  fetchOne (fun t => t.transfer_id = transfer_id) db.transfers

/-- Embeds `UPDATE transfers SET status = ?, [reference = reference || <err>,]
completed_at = ? WHERE transfer_id = ?`: the status updates issued inside
`settle_transfer_transaction` (`extra = some e` appends a diagnostic to the
reference, as on the FAILED paths; `extra = none` leaves it unchanged, as on
the COMPLETED path). -/

def updateTransferRow (db : DB) (transfer_id : ℤ) (status : String)
    (extra : Option String) (now : ℚ) : DB :=
  { db with transfers :=
      db.transfers.map (fun t =>
        if t.transfer_id = transfer_id then
          { t with status := status,
                   reference := t.reference ++ extra.getD "",
                   completed_at := some now }
        else t) }

/-- Embeds `settle_transfer_transaction` (`src/server/bdb_server.py`): atomically
re-read the transfer and both balances, fail the transfer (status FAILED,
diagnostic appended to the reference) on a missing account or insufficient
funds, otherwise debit the sender by `amount + fee`, credit the recipient by
`amount` and mark the transfer COMPLETED.  Returns `(success, error)`
together with the committed database. -/

def settle_transfer_transaction (db : DB) (transfer_id : ℤ) (now : ℚ) :
    (Bool × Option String) × DB :=
  match get_transfer db transfer_id with
  | none => ((false, some "Transfer record not found"), db)
  | some t =>
    if t.status ≠ "PENDING" then
      ((false, some ("Transfer is already " ++ t.status)), db)
    else
      match get_account_by_id db t.from_account_id with
      | none =>
        ((false, some "Sender account not found"),
         updateTransferRow db transfer_id "FAILED" (some " [Error: Sender missing]") now)
      | some sender =>
        if sender.balance < t.amount + t.fee then
          ((false, some "Insufficient balance. Available"),
           updateTransferRow db transfer_id "FAILED" (some " [Error: Insufficient funds]") now)
        else
          match get_account_by_id db t.to_account_id with
          | none =>
            ((false, some "Recipient account not found"),
             updateTransferRow db transfer_id "FAILED" (some " [Error: Recipient missing]") now)
          | some recipient =>
            let db1 := setAccountBalance db t.from_account_id
              (round2 (sender.balance - (t.amount + t.fee)))
            let db2 := setAccountBalance db1 t.to_account_id
              (round2 (recipient.balance + t.amount))
            ((true, none), updateTransferRow db2 transfer_id "COMPLETED" none now)

/-! ## BAS server (`src/server/bas_server.py`) -/

/-- Embeds `TOKEN_EXPIRATION_HOURS` from `src/config.py`, converted to the
seconds timeline of the embedding. -/

def TOKEN_EXPIRATION_SECONDS : ℚ := 24 * 3600

/-- Embeds `IDEMPOTENCY_WINDOW` (seconds), set in `BankApplicationServer.__init__`. -/

def IDEMPOTENCY_WINDOW : ℚ := 5

/-- The fields fingerprinted by the idempotency guard: the colon-joined
string `f"{user_id}:{recipient_account_id}:{amount}:{reference}"` and its
MD5 digest are modelled by the tuple itself (the digest is a deterministic,
collision-free function of the key). -/

structure TransferKey where
  user_id : ℤ
  recipient_account_id : ℤ
  amount : ℚ
  reference : String
deriving DecidableEq

/-- The in-memory BAS state: `self.recent_transfers`, a dict from
fingerprint to last-seen `time.time()` value. -/

structure BAS where
  recent_transfers : List (TransferKey × ℚ)

/-- Python dict lookup `m[k]` / `k in m`. -/

def dictGet (m : List (TransferKey × ℚ)) (k : TransferKey) : Option ℚ :=
  (fetchOne (fun p => p.1 = k) m).map (fun p => p.2)

/-- Python dict assignment `m[k] = v` (the binding for `k` is replaced). -/

def dictInsert (m : List (TransferKey × ℚ)) (k : TransferKey) (v : ℚ) :
    List (TransferKey × ℚ) :=
  m.filter (fun p => p.1 ≠ k) ++ [(k, v)]

/-- Embeds `sha256_hexdigest`: the SHA-256 hex digest used by the server-tier
`login` and `init_database`.  Modelled as an abstract digest function that
is injective and never returns its own input — the properties of the
cryptographic hash the source relies on. -/

def sha256_hexdigest (secret : String) : String := "sha256:" ++ secret

/-- Embeds `BankApplicationServer.login` (`src/server/bas_server.py`): compare the
SHA-256 hash of the supplied password against the stored credential hash
and create a session expiring `TOKEN_EXPIRATION_HOURS` from now.  The
`uuid.uuid4()` token is modelled as an externally supplied fresh string. -/

def login (db : DB) (username password : String) (fresh_token : String) (now : ℚ) :
    (Bool × String) × DB :=
  match get_user_by_username db username with
  | none => ((false, "Invalid username or password"), db)
  | some user =>
    if user.password_hash ≠ sha256_hexdigest password then
      ((false, "Invalid username or password"), db)
    else
      ((true, fresh_token),
       create_session db user.user_id fresh_token (now + TOKEN_EXPIRATION_SECONDS))

/-- The legacy `BankApplicationServer.login` of the top-level
`src/bas_server.py`: identical control flow, but the supplied password is
compared against the stored credential *as plaintext* (no hashing). -/

def legacy_login (db : DB) (username password : String) (fresh_token : String) (now : ℚ) :
    (Bool × String) × DB :=
  match get_user_by_username db username with
  | none => ((false, "Invalid username or password"), db)
  | some user =>
    if user.password_hash ≠ password then
      ((false, "Invalid username or password"), db)
    else
      ((true, fresh_token),
       create_session db user.user_id fresh_token (now + TOKEN_EXPIRATION_SECONDS))

/-- Embeds `MOCK_USERS` from `src/config.py`:
`(username, password, user_id, account_id, initial_balance)`. -/

def MOCK_USERS : List (String × String × ℤ × ℤ × ℚ) :=
  [("john", "pass123", 1, 1001, 50000),
   ("jane", "pass456", 2, 1002, 75000)]

/-- The `users` rows inserted by `init_database` of `src/server/bdb_server.py`:
the stored credential is the SHA-256 hash of the mock password. -/

def init_users_server : List User :=
  MOCK_USERS.map (fun m => ⟨m.2.2.1, m.1, sha256_hexdigest m.2.1⟩)

/-- The `users` rows inserted by `init_database` of the legacy top-level
`src/bdb_server.py`: the stored credential is the plaintext mock password. -/

def init_users_legacy : List User :=
  MOCK_USERS.map (fun m => ⟨m.2.2.1, m.1, m.2.1⟩)

/-- The `accounts` rows inserted by `init_database` (both variants). -/

def init_accounts : List Account :=
  MOCK_USERS.map (fun m => ⟨m.2.2.2.1, m.2.2.1, m.2.2.2.2⟩)

/-- Embeds `validate_token` (`src/server/bas_server.py`): resolve a token through
`bdb.validate_session`; `none` models the raised `Authentication failed`
exception. -/

def validate_token (db : DB) (token : String) (now : ℚ) : Option ℤ :=
  validate_session db token now

/-- The result of `submit_transfer`: `(True, result_dict)` carrying the
transfer id, amount, fee and status COMPLETED, or `(False, message)`. -/
inductive SubmitResult where
  | ok (transfer_id : ℤ) (amount fee : ℚ)
  | err (msg : String)
deriving DecidableEq

/-- The duplicate test of the idempotency guard in `submit_transfer`:
the fingerprint was seen strictly less than `IDEMPOTENCY_WINDOW` seconds ago. -/

def isDuplicate (bas : BAS) (key : TransferKey) (now : ℚ) : Bool :=
  match dictGet bas.recent_transfers key with
  | some last_time => decide (now - last_time < IDEMPOTENCY_WINDOW)
  | none => false

/-- Recording a fingerprint in `submit_transfer`:
`self.recent_transfers[transfer_hash] = current_time` followed by the lazy
sweep dropping every entry as old as the window. -/

def recordFingerprint (bas : BAS) (key : TransferKey) (now : ℚ) : BAS :=
  ⟨(dictInsert bas.recent_transfers key now).filter
     (fun p => now - p.2 < IDEMPOTENCY_WINDOW)⟩

/-- Embeds `BankApplicationServer.submit_transfer` (`src/server/bas_server.py`):
authenticate, resolve the sender account, validate amount and reference,
consult and update the idempotency guard, resolve the recipient, reject
self-transfers, compute the fee, pre-check the balance against the
submission-time snapshot, create a PENDING transfer and settle it.
`reference and len(reference) > 200` is `reference.length > 200`
(an empty reference has length 0). -/

def submit_transfer (bas : BAS) (db : DB) (token : String)
    (recipient_account_id : ℤ) (amount : ℚ) (reference : String) (now : ℚ) :
    SubmitResult × BAS × DB :=
  match validate_token db token now with
  | none => (.err "Authentication failed", bas, db)
  | some user_id =>
    match get_account_by_user_id db user_id with
    | none => (.err "Sender account not found", bas, db)
    | some sender_account =>
      if amount ≤ 0 then (.err "Transfer amount must be positive", bas, db)
      else if reference.length > 200 then
        (.err "Reference message too long (max 200 characters)", bas, db)
      else
        let a := round2 amount
        let key : TransferKey := ⟨user_id, recipient_account_id, a, reference⟩
        if isDuplicate bas key now then
          (.err "Duplicate transfer detected. Please wait a few seconds before trying again.",
           bas, db)
        else
          let bas1 : BAS := recordFingerprint bas key now
          match get_account_by_id db recipient_account_id with
          | none => (.err "Recipient account not found", bas1, db)
          | some _ =>
            if sender_account.account_id = recipient_account_id then
              (.err "Cannot transfer to your own account", bas1, db)
            else
              let fee := calculate_fee a
              if sender_account.balance < a + fee then
                (.err "Insufficient balance. Required", bas1, db)
              else
                let idDb := create_transfer db sender_account.account_id
                  recipient_account_id a fee reference "PENDING" now
                let res := settle_transfer_transaction idDb.2 idDb.1 now
                if res.1.1 then (.ok idDb.1 a fee, bas1, res.2)
                else (.err ("Transaction failed for ID: " ++ ((res.1.2).getD "")), bas1, res.2)

/-- A concrete database holding one PENDING transfer of $60.00 (no fee)
from account 1001 (balance $100.00) to account 1002 (balance $100.00). -/
def dbPending : DB :=
  ⟨[], [⟨1001, 1, 100⟩, ⟨1002, 2, 100⟩],
   [⟨1, 1001, 1002, 60, 0, "PENDING", "", 0, none⟩], [], 2⟩

/-- A concrete database holding one COMPLETED transfer. -/
def dbCompleted : DB :=
  ⟨[], [], [⟨1, 1001, 1002, 60, 0, "COMPLETED", "", 0, some 0⟩], [], 2⟩

/-- A database holding a single session for user 7 with token `"tok"`
expiring at time 100. -/
def dbSession : DB := ⟨[], [], [], [⟨7, "tok", 100⟩], 1⟩

/-- An empty database. -/

def dbEmpty : DB := ⟨[], [], [], [], 1⟩

/-- A database with two accounts (balances $100.00 each), a valid session
for user 1, and no transfers. -/
def dbFunds : DB := ⟨[], [⟨1001, 1, 100⟩, ⟨1002, 2, 100⟩], [], [⟨1, "tok", 86400⟩], 1⟩

/-- The database bootstrapped by the legacy top-level `src/bdb_server.py`
`init_database`: credentials stored as plaintext. -/
def dbLegacy : DB := ⟨init_users_legacy, init_accounts, [], [], 1⟩

/-- The database bootstrapped by `src/server/bdb_server.py` `init_database`:
credentials stored as SHA-256 hashes. -/

def dbServer : DB := ⟨init_users_server, init_accounts, [], [], 1⟩

/-- A database like `dbFunds` but with a sender balance of $1000.00, enough
for two $60.00 transfers. -/
def dbRich : DB := ⟨[], [⟨1001, 1, 1000⟩, ⟨1002, 2, 100⟩], [], [⟨1, "tok", 86400⟩], 1⟩

/-! ## Basic lemmas about rounding and table lookups -/

theorem roundHalfEven_intCast (n : ℤ) : roundHalfEven (n : ℚ) = n := by
  unfold roundHalfEven
  norm_num

theorem round2_of_isCents {q : ℚ} (h : IsCents q) : round2 q = q := by
  obtain ⟨n, rfl⟩ := h
  unfold round2
  have h100 : ((n : ℚ) / 100) * 100 = (n : ℚ) := by field_simp
  rw [h100, roundHalfEven_intCast]

theorem isCents_round2 (q : ℚ) : IsCents (round2 q) := ⟨roundHalfEven (q * 100), rfl⟩

theorem IsCents.add {p q : ℚ} (hp : IsCents p) (hq : IsCents q) : IsCents (p + q) := by
  obtain ⟨m, rfl⟩ := hp; obtain ⟨n, rfl⟩ := hq
  exact ⟨m + n, by push_cast; ring⟩

theorem IsCents.sub {p q : ℚ} (hp : IsCents p) (hq : IsCents q) : IsCents (p - q) := by
  obtain ⟨m, rfl⟩ := hp; obtain ⟨n, rfl⟩ := hq
  exact ⟨m - n, by push_cast; ring⟩

theorem roundHalfEven_nonneg {q : ℚ} (h : 0 ≤ q) : 0 ≤ roundHalfEven q := by
  unfold roundHalfEven
  have hf : (0 : ℤ) ≤ ⌊q⌋ := Int.floor_nonneg.mpr h
  split_ifs <;> omega

theorem round2_nonneg {q : ℚ} (h : 0 ≤ q) : 0 ≤ round2 q := by
  unfold round2
  have := roundHalfEven_nonneg (q := q * 100) (by positivity)
  positivity

theorem fetchOne_eq_some {α : Type} {p : α → Prop} [DecidablePred p] {l : List α} {x : α}
    (h : fetchOne p l = some x) : x ∈ l ∧ p x := by
  induction l with
  | nil => simp [fetchOne] at h
  | cons y ys ih =>
    by_cases hy : p y
    · simp [fetchOne, hy] at h
      subst h; exact ⟨List.mem_cons_self y ys, hy⟩
    · simp [fetchOne, hy] at h
      obtain ⟨hmem, hp⟩ := ih h
      exact ⟨List.mem_cons_of_mem y hmem, hp⟩

/-- A `fetchOne` keyed on a field commutes with a row-update that
preserves that field. -/

theorem fetchOne_map {α : Type} {p : α → Prop} [DecidablePred p] (g : α → α)
    (hg : ∀ x, (p (g x) ↔ p x)) (l : List α) :
    fetchOne p (l.map g) = (fetchOne p l).map g := by
  induction l with
  | nil => simp [fetchOne]
  | cons y ys ih =>
    by_cases hy : p y
    · simp [fetchOne, hy, (hg y).mpr hy]
    · have : ¬ p (g y) := fun hc => hy ((hg y).mp hc)
      simp [fetchOne, hy, this, ih]

theorem fetchOne_append {α : Type} {p : α → Prop} [DecidablePred p] (l₁ l₂ : List α) :
    fetchOne p (l₁ ++ l₂) =
      match fetchOne p l₁ with
      | some x => some x
      | none => fetchOne p l₂ := by
  induction l₁ with
  | nil => simp [fetchOne]
  | cons y ys ih =>
    by_cases hy : p y <;> simp [fetchOne, hy, ih]

theorem fetchOne_of_forall_not {α : Type} {p : α → Prop} [DecidablePred p] {l : List α}
    (h : ∀ x ∈ l, ¬ p x) : fetchOne p l = none := by
  induction l with
  | nil => rfl
  | cons y ys ih =>
    have hy := h y (List.mem_cons_self y ys)
    simp [fetchOne, hy]
    exact ih (fun x hx => h x (List.mem_cons_of_mem y hx))

/-! ## Symbolic execution lemmas for settlement -/

theorem get_account_setBalance (db : DB) (aid : ℤ) (b : ℚ) (j : ℤ) :
    get_account_by_id (setAccountBalance db aid b) j =
      (get_account_by_id db j).map
        (fun a => if a.account_id = aid then { a with balance := b } else a) := by
  unfold get_account_by_id setAccountBalance
  exact fetchOne_map _ (fun x => by by_cases h : x.account_id = aid <;> simp [h]) _

theorem get_account_updateTransferRow (db : DB) (tid : ℤ) (st : String)
    (extra : Option String) (now : ℚ) (j : ℤ) :
    get_account_by_id (updateTransferRow db tid st extra now) j = get_account_by_id db j := rfl

theorem settle_completed_eq (db : DB) (tid : ℤ) (now : ℚ) (t : Transfer)
    (sender recipient : Account)
    (ht : get_transfer db tid = some t) (hp : t.status = "PENDING")
    (hs : get_account_by_id db t.from_account_id = some sender)
    (hb : ¬ sender.balance < t.amount + t.fee)
    (hr : get_account_by_id db t.to_account_id = some recipient) :
    settle_transfer_transaction db tid now =
      ((true, none),
       updateTransferRow
         (setAccountBalance
           (setAccountBalance db t.from_account_id
             (round2 (sender.balance - (t.amount + t.fee))))
           t.to_account_id (round2 (recipient.balance + t.amount)))
         tid "COMPLETED" none now) := by
  unfold settle_transfer_transaction
  simp only [ht, hp, hs, hr, hb]
  simp

theorem settle_insufficient_eq (db : DB) (tid : ℤ) (now : ℚ) (t : Transfer)
    (sender : Account)
    (ht : get_transfer db tid = some t) (hp : t.status = "PENDING")
    (hs : get_account_by_id db t.from_account_id = some sender)
    (hb : sender.balance < t.amount + t.fee) :
    settle_transfer_transaction db tid now =
      ((false, some "Insufficient balance. Available"),
       updateTransferRow db tid "FAILED" (some " [Error: Insufficient funds]") now) := by
  unfold settle_transfer_transaction
  simp only [ht, hp, hs, hb]
  simp

theorem settle_not_pending_eq (db : DB) (tid : ℤ) (now : ℚ) (t : Transfer)
    (ht : get_transfer db tid = some t) (hp : t.status ≠ "PENDING") :
    settle_transfer_transaction db tid now =
      ((false, some ("Transfer is already " ++ t.status)), db) := by
  unfold settle_transfer_transaction
  simp only [ht, hp]
  simp
  exact fun h => absurd h hp

theorem settle_not_found_eq (db : DB) (tid : ℤ) (now : ℚ)
    (ht : get_transfer db tid = none) :
    settle_transfer_transaction db tid now =
      ((false, some "Transfer record not found"), db) := by
  unfold settle_transfer_transaction
  simp only [ht]

/-- C1 (money conservation): whenever `settle_transfer_transaction`
commits a transfer with status COMPLETED, the sender's balance after
settlement equals the balance read inside the settlement transaction minus
`amount + fee`, and the recipient's balance equals the balance read inside
the settlement transaction plus `amount` — stated against the database the
settlement runs on (the step-9a re-read), for any such database, not
against any earlier submission-time snapshot.  All monetary values carry
2-decimal precision, so the source's `round(..., 2)` is exact. -/

theorem C1_money_conservation (db : DB) (tid : ℤ) (now : ℚ) (t : Transfer)
    (sender recipient : Account)
    (ht : get_transfer db tid = some t)
    (hdistinct : t.from_account_id ≠ t.to_account_id)
    (hs : get_account_by_id db t.from_account_id = some sender)
    (hr : get_account_by_id db t.to_account_id = some recipient)
    (hcs : IsCents sender.balance) (hcr : IsCents recipient.balance)
    (hca : IsCents t.amount) (hcf : IsCents t.fee)
    (hok : ((settle_transfer_transaction db tid now).1).1 = true) :
    (get_account_by_id (settle_transfer_transaction db tid now).2 t.from_account_id).map
        Account.balance = some (sender.balance - (t.amount + t.fee)) ∧
    (get_account_by_id (settle_transfer_transaction db tid now).2 t.to_account_id).map
        Account.balance = some (recipient.balance + t.amount) := by
  have hsid : sender.account_id = t.from_account_id := (fetchOne_eq_some hs).2
  have hrid : recipient.account_id = t.to_account_id := (fetchOne_eq_some hr).2
  by_cases hp : t.status = "PENDING"
  · by_cases hb : sender.balance < t.amount + t.fee
    · rw [settle_insufficient_eq db tid now t sender ht hp hs hb] at hok
      simp at hok
    · rw [settle_completed_eq db tid now t sender recipient ht hp hs hb hr]
      dsimp only
      rw [get_account_updateTransferRow, get_account_updateTransferRow,
        get_account_setBalance, get_account_setBalance, get_account_setBalance,
        get_account_setBalance, hs, hr]
      constructor
      · simp only [Option.map_some', Function.comp_apply]
        rw [if_pos hsid]
        have hnot : ¬ (sender.account_id = t.to_account_id) := by
          rw [hsid]; exact hdistinct
        simp only [if_neg hnot]
        simp [round2_of_isCents (IsCents.sub hcs (IsCents.add hca hcf))]
      · simp only [Option.map_some', Function.comp_apply]
        have hnot : ¬ (recipient.account_id = t.from_account_id) := by
          rw [hrid]; exact fun hc => hdistinct hc.symm
        rw [if_neg hnot, if_pos hrid]
        simp [round2_of_isCents (IsCents.add hcr hca)]
  · rw [settle_not_pending_eq db tid now t ht hp] at hok
    simp at hok

/-- Witness for C1 at a concrete settlement: $100.00 − $60.00 = $40.00 for
the sender and $100.00 + $60.00 = $160.00 for the recipient. -/
theorem C1_money_conservation_witness :
    (get_account_by_id (settle_transfer_transaction dbPending 1 0).2 1001).map
        Account.balance = some 40 ∧
    (get_account_by_id (settle_transfer_transaction dbPending 1 0).2 1002).map
        Account.balance = some 160 := by
  have hok : ((settle_transfer_transaction dbPending 1 0).1).1 = true := by
    rw [settle_completed_eq dbPending 1 0 ⟨1, 1001, 1002, 60, 0, "PENDING", "", 0, none⟩
      ⟨1001, 1, 100⟩ ⟨1002, 2, 100⟩ rfl rfl rfl (by norm_num) rfl]
  have h := C1_money_conservation dbPending 1 0
    ⟨1, 1001, 1002, 60, 0, "PENDING", "", 0, none⟩ ⟨1001, 1, 100⟩ ⟨1002, 2, 100⟩
    rfl (by decide) rfl rfl ⟨10000, by norm_num⟩ ⟨10000, by norm_num⟩
    ⟨6000, by norm_num⟩ ⟨0, by norm_num⟩ hok
  refine ⟨?_, ?_⟩
  · have h1 := h.1
    norm_num at h1 ⊢
    exact h1
  · have h2 := h.2
    norm_num at h2 ⊢
    exact h2

/-! ## The fee table over 2-decimal amounts -/

theorem inTier_div100_iff (lo hi : ℕ) (p cap : ℚ) (n : ℕ) :
    inTier ⟨(lo : ℚ)/100, some ((hi : ℚ)/100), p, cap⟩ ((n : ℚ)/100) ↔ (lo ≤ n ∧ n ≤ hi) := by
  unfold inTier
  dsimp only
  rw [div_le_div_iff_of_pos_right (by norm_num : (0:ℚ) < 100),
      div_le_div_iff_of_pos_right (by norm_num : (0:ℚ) < 100), Nat.cast_le, Nat.cast_le]

theorem inTier_div100_last_iff (lo : ℕ) (p cap : ℚ) (n : ℕ) :
    inTier ⟨(lo : ℚ)/100, none, p, cap⟩ ((n : ℚ)/100) ↔ lo ≤ n := by
  unfold inTier
  dsimp only
  rw [div_le_div_iff_of_pos_right (by norm_num : (0:ℚ) < 100), Nat.cast_le]
  simp

/-- The boundaries of `FEE_TIERS`, expressed in cents. -/

theorem FEE_TIERS_eq :
    FEE_TIERS =
      [ ⟨((0:ℕ) : ℚ)/100, some (((200000:ℕ) : ℚ)/100), 0, 0⟩,
        ⟨((200001:ℕ) : ℚ)/100, some (((1000000:ℕ) : ℚ)/100), 0.0025, 20⟩,
        ⟨((1000001:ℕ) : ℚ)/100, some (((2000000:ℕ) : ℚ)/100), 0.0020, 25⟩,
        ⟨((2000001:ℕ) : ℚ)/100, some (((5000000:ℕ) : ℚ)/100), 0.00125, 40⟩,
        ⟨((5000001:ℕ) : ℚ)/100, some (((10000000:ℕ) : ℚ)/100), 0.0008, 50⟩,
        ⟨((10000001:ℕ) : ℚ)/100, none, 0.0005, 100⟩ ] := by
  unfold FEE_TIERS
  norm_num

/-- C3 (fee calculator correctness): `calculate_fee` returns `0.00` for
non-positive amounts; for every positive amount with 2-decimal precision
(`n` cents, `n > 0`) exactly one tier of the six-tier table contains the
amount (no gaps, no overlaps) and the fee is `min(amount × rate, cap)`
rounded to 2 decimal places for that tier; and the computed fee matches the
canonical table at every listed boundary value, including the cap cases
(`10000.00 ↦ 20.00`, not `25.00`) and the rounding case
(`3333.33 ↦ 8.33`). -/

theorem C3_fee_calculator :
    (∀ a : ℚ, a ≤ 0 → calculate_fee a = 0) ∧
    (∀ n : ℕ, 0 < n →
      FEE_TIERS.countP (fun t => decide (inTier t ((n : ℚ)/100))) = 1 ∧
      ∀ t ∈ FEE_TIERS, inTier t ((n : ℚ)/100) →
        calculate_fee ((n : ℚ)/100) = round2 (min (((n : ℚ)/100) * t.percentage) t.cap)) ∧
    (calculate_fee 2000 = 0 ∧ calculate_fee (2000.01 : ℚ) = 5 ∧
     calculate_fee 10000 = 20 ∧ calculate_fee (10000.01 : ℚ) = 20 ∧
     calculate_fee 20000 = 25 ∧ calculate_fee (20000.01 : ℚ) = 25 ∧
     calculate_fee 50000 = 40 ∧ calculate_fee (50000.01 : ℚ) = 40 ∧
     calculate_fee 100000 = 50 ∧ calculate_fee (100000.01 : ℚ) = 50 ∧
     calculate_fee (3333.33 : ℚ) = (8.33 : ℚ)) := by
  refine ⟨?_, ?_, ?_⟩
  · intro a ha; unfold calculate_fee; rw [if_pos ha]
  · intro n hn
    have h0 : (0 : ℚ) < (n : ℚ) := by exact_mod_cast hn
    have hpos : ¬ ((n : ℚ)/100 ≤ 0) := by rw [not_le]; positivity
    constructor
    · rw [FEE_TIERS_eq]
      simp only [List.countP_cons, List.countP_nil, decide_eq_true_eq,
        inTier_div100_iff, inTier_div100_last_iff]
      split_ifs <;> omega
    · intro t htm ht
      rw [FEE_TIERS_eq] at htm
      simp only [List.mem_cons, List.not_mem_nil, or_false] at htm
      rcases htm with rfl | rfl | rfl | rfl | rfl | rfl
      · have hb := (inTier_div100_iff 0 200000 0 0 n).mp ht
        unfold calculate_fee
        rw [if_neg hpos, FEE_TIERS_eq]
        simp only [feeLoop, inTier_div100_iff, inTier_div100_last_iff]
        rw [if_pos (by omega)]
        simp
      · have hb := (inTier_div100_iff 200001 1000000 0.0025 20 n).mp ht
        unfold calculate_fee
        rw [if_neg hpos, FEE_TIERS_eq]
        simp only [feeLoop, inTier_div100_iff, inTier_div100_last_iff]
        rw [if_neg (by omega), if_pos (by omega)]
        simp
      · have hb := (inTier_div100_iff 1000001 2000000 0.0020 25 n).mp ht
        unfold calculate_fee
        rw [if_neg hpos, FEE_TIERS_eq]
        simp only [feeLoop, inTier_div100_iff, inTier_div100_last_iff]
        rw [if_neg (by omega), if_neg (by omega), if_pos (by omega)]
        simp
      · have hb := (inTier_div100_iff 2000001 5000000 0.00125 40 n).mp ht
        unfold calculate_fee
        rw [if_neg hpos, FEE_TIERS_eq]
        simp only [feeLoop, inTier_div100_iff, inTier_div100_last_iff]
        rw [if_neg (by omega), if_neg (by omega), if_neg (by omega), if_pos (by omega)]
        simp
      · have hb := (inTier_div100_iff 5000001 10000000 0.0008 50 n).mp ht
        unfold calculate_fee
        rw [if_neg hpos, FEE_TIERS_eq]
        simp only [feeLoop, inTier_div100_iff, inTier_div100_last_iff]
        rw [if_neg (by omega), if_neg (by omega), if_neg (by omega), if_neg (by omega),
          if_pos (by omega)]
        simp
      · have hb := (inTier_div100_last_iff 10000001 0.0005 100 n).mp ht
        unfold calculate_fee
        rw [if_neg hpos, FEE_TIERS_eq]
        simp only [feeLoop, inTier_div100_iff, inTier_div100_last_iff]
        rw [if_neg (by omega), if_neg (by omega), if_neg (by omega), if_neg (by omega),
          if_neg (by omega), if_pos (by omega)]
        simp
  · refine ⟨?_, ?_, ?_, ?_, ?_, ?_, ?_, ?_, ?_, ?_, ?_⟩ <;>
      norm_num [calculate_fee, feeLoop, FEE_TIERS, inTier, round2, roundHalfEven]

/-- Witness for C3: the non-positive branch at `-5` and the
unique-tier count at `3333.33` (= 333333 cents). -/

theorem C3_fee_calculator_witness :
    calculate_fee (-5) = 0 ∧
    FEE_TIERS.countP (fun t => decide (inTier t (((333333 : ℕ) : ℚ)/100))) = 1 := by
  have h := C3_fee_calculator
  exact ⟨h.1 (-5) (by norm_num), (h.2.1 333333 (by norm_num)).1⟩

/-! ## Symbolic execution lemmas for submit_transfer -/

theorem submit_duplicate_eq (bas : BAS) (db : DB) (token : String) (rid : ℤ)
    (amount : ℚ) (reference : String) (now : ℚ) (uid : ℤ) (sender : Account)
    (hauth : validate_token db token now = some uid)
    (hsender : get_account_by_user_id db uid = some sender)
    (hamt : ¬ (amount ≤ 0)) (href : ¬ (reference.length > 200))
    (hdup : isDuplicate bas ⟨uid, rid, round2 amount, reference⟩ now = true) :
    submit_transfer bas db token rid amount reference now =
      (.err "Duplicate transfer detected. Please wait a few seconds before trying again.",
       bas, db) := by
  unfold submit_transfer
  simp only [hauth, hsender, if_neg hamt, if_neg href, hdup, if_true]

theorem submit_recipient_missing_eq (bas : BAS) (db : DB) (token : String) (rid : ℤ)
    (amount : ℚ) (reference : String) (now : ℚ) (uid : ℤ) (sender : Account)
    (hauth : validate_token db token now = some uid)
    (hsender : get_account_by_user_id db uid = some sender)
    (hamt : ¬ (amount ≤ 0)) (href : ¬ (reference.length > 200))
    (hdup : isDuplicate bas ⟨uid, rid, round2 amount, reference⟩ now = false)
    (hrec : get_account_by_id db rid = none) :
    submit_transfer bas db token rid amount reference now =
      (.err "Recipient account not found",
       recordFingerprint bas ⟨uid, rid, round2 amount, reference⟩ now, db) := by
  unfold submit_transfer
  simp only [hauth, hsender, if_neg hamt, if_neg href, hdup, if_false, hrec,
    Bool.false_eq_true]

theorem submit_self_eq (bas : BAS) (db : DB) (token : String) (rid : ℤ)
    (amount : ℚ) (reference : String) (now : ℚ) (uid : ℤ) (sender recipient : Account)
    (hauth : validate_token db token now = some uid)
    (hsender : get_account_by_user_id db uid = some sender)
    (hamt : ¬ (amount ≤ 0)) (href : ¬ (reference.length > 200))
    (hdup : isDuplicate bas ⟨uid, rid, round2 amount, reference⟩ now = false)
    (hrec : get_account_by_id db rid = some recipient)
    (hself : sender.account_id = rid) :
    submit_transfer bas db token rid amount reference now =
      (.err "Cannot transfer to your own account",
       recordFingerprint bas ⟨uid, rid, round2 amount, reference⟩ now, db) := by
  unfold submit_transfer
  simp only [hauth, hsender, if_neg hamt, if_neg href, hdup, if_false, hrec,
    Bool.false_eq_true, if_pos hself]

theorem submit_insufficient_eq (bas : BAS) (db : DB) (token : String) (rid : ℤ)
    (amount : ℚ) (reference : String) (now : ℚ) (uid : ℤ) (sender recipient : Account)
    (hauth : validate_token db token now = some uid)
    (hsender : get_account_by_user_id db uid = some sender)
    (hamt : ¬ (amount ≤ 0)) (href : ¬ (reference.length > 200))
    (hdup : isDuplicate bas ⟨uid, rid, round2 amount, reference⟩ now = false)
    (hrec : get_account_by_id db rid = some recipient)
    (hself : ¬ (sender.account_id = rid))
    (hbal : sender.balance < round2 amount + calculate_fee (round2 amount)) :
    submit_transfer bas db token rid amount reference now =
      (.err "Insufficient balance. Required",
       recordFingerprint bas ⟨uid, rid, round2 amount, reference⟩ now, db) := by
  unfold submit_transfer
  simp only [hauth, hsender, if_neg hamt, if_neg href, hdup, if_false, hrec,
    Bool.false_eq_true, if_neg hself, if_pos hbal]

theorem create_transfer_found (db : DB) (fid tid : ℤ) (a f : ℚ) (ref st : String) (now : ℚ)
    (hfresh : ∀ t ∈ db.transfers, t.transfer_id ≠ db.nextTransferId) :
    get_transfer (create_transfer db fid tid a f ref st now).2 db.nextTransferId =
      some ⟨db.nextTransferId, fid, tid, a, f, st, ref, now, none⟩ := by
  unfold get_transfer create_transfer
  rw [fetchOne_append]
  rw [fetchOne_of_forall_not (by intro x hx; exact hfresh x hx)]
  simp [fetchOne]

theorem submit_ok_eq (bas : BAS) (db : DB) (token : String) (rid : ℤ)
    (amount : ℚ) (reference : String) (now : ℚ) (uid : ℤ) (sender recipient : Account)
    (hauth : validate_token db token now = some uid)
    (hsender : get_account_by_user_id db uid = some sender)
    (hamt : ¬ (amount ≤ 0)) (href : ¬ (reference.length > 200))
    (hdup : isDuplicate bas ⟨uid, rid, round2 amount, reference⟩ now = false)
    (hrec : get_account_by_id db rid = some recipient)
    (hself : ¬ (sender.account_id = rid))
    (hbal : ¬ (sender.balance < round2 amount + calculate_fee (round2 amount)))
    (hsid : get_account_by_id db sender.account_id = some sender)
    (hfresh : ∀ t ∈ db.transfers, t.transfer_id ≠ db.nextTransferId) :
    submit_transfer bas db token rid amount reference now =
      (.ok db.nextTransferId (round2 amount) (calculate_fee (round2 amount)),
       recordFingerprint bas ⟨uid, rid, round2 amount, reference⟩ now,
       updateTransferRow
         (setAccountBalance
           (setAccountBalance
             (create_transfer db sender.account_id rid (round2 amount)
               (calculate_fee (round2 amount)) reference "PENDING" now).2
             sender.account_id
             (round2 (sender.balance -
               (round2 amount + calculate_fee (round2 amount)))))
           rid (round2 (recipient.balance + round2 amount)))
         db.nextTransferId "COMPLETED" none now) := by
  have hsettle := settle_completed_eq
    (create_transfer db sender.account_id rid (round2 amount)
      (calculate_fee (round2 amount)) reference "PENDING" now).2
    db.nextTransferId now
    ⟨db.nextTransferId, sender.account_id, rid, round2 amount,
      calculate_fee (round2 amount), "PENDING", reference, now, none⟩
    sender recipient
    (create_transfer_found db sender.account_id rid (round2 amount)
      (calculate_fee (round2 amount)) reference "PENDING" now hfresh)
    rfl hsid hbal hrec
  unfold submit_transfer
  simp only [hauth, hsender, if_neg hamt, if_neg href, hdup, if_false,
    Bool.false_eq_true, hrec, if_neg hself, if_neg hbal]
  have hfst : (create_transfer db sender.account_id rid (round2 amount)
      (calculate_fee (round2 amount)) reference "PENDING" now).1 = db.nextTransferId := rfl
  rw [hfst, hsettle]
  simp

/-! ## Status transitions -/

theorem updateTransferRow_status_change (l : List Transfer) (tid : ℤ) (st : String)
    (extra : Option String) (now : ℚ) (i : ℕ) (told tnew : Transfer)
    (h1 : l[i]? = some told)
    (h2 : (l.map (fun t =>
        if t.transfer_id = tid then
          { t with status := st, reference := t.reference ++ extra.getD "",
                   completed_at := some now }
        else t))[i]? = some tnew)
    (hne : tnew.status ≠ told.status) :
    told.transfer_id = tid ∧ tnew.status = st := by
  rw [List.getElem?_map, h1, Option.map_some'] at h2
  by_cases hid : told.transfer_id = tid
  · rw [if_pos hid] at h2
    cases h2.symm
    exact ⟨hid, rfl⟩
  · rw [if_neg hid] at h2
    cases h2.symm
    exact absurd rfl hne

theorem mem_transfer_id_unique {l : List Transfer}
    (hnd : (l.map Transfer.transfer_id).Nodup) {t1 t2 : Transfer}
    (h1 : t1 ∈ l) (h2 : t2 ∈ l) (hk : t1.transfer_id = t2.transfer_id) : t1 = t2 :=
  List.inj_on_of_nodup_map hnd h1 h2 hk

theorem getElem_mem_of_some {α : Type} {l : List α} {i : ℕ} {x : α}
    (h : l[i]? = some x) : x ∈ l := by
  have hi : i < l.length := by
    by_contra hc
    rw [List.getElem?_eq_none (by omega)] at h
    exact Option.noConfusion h
  rw [List.getElem?_eq_getElem hi] at h
  cases h.symm
  exact List.getElem_mem hi

theorem settle_sender_missing_eq (db : DB) (tid : ℤ) (now : ℚ) (t : Transfer)
    (ht : get_transfer db tid = some t) (hp : t.status = "PENDING")
    (hs : get_account_by_id db t.from_account_id = none) :
    settle_transfer_transaction db tid now =
      ((false, some "Sender account not found"),
       updateTransferRow db tid "FAILED" (some " [Error: Sender missing]") now) := by
  unfold settle_transfer_transaction
  simp only [ht, hp, hs]
  simp

theorem settle_recipient_missing_eq (db : DB) (tid : ℤ) (now : ℚ) (t : Transfer)
    (sender : Account)
    (ht : get_transfer db tid = some t) (hp : t.status = "PENDING")
    (hs : get_account_by_id db t.from_account_id = some sender)
    (hb : ¬ sender.balance < t.amount + t.fee)
    (hr : get_account_by_id db t.to_account_id = none) :
    settle_transfer_transaction db tid now =
      ((false, some "Recipient account not found"),
       updateTransferRow db tid "FAILED" (some " [Error: Recipient missing]") now) := by
  unfold settle_transfer_transaction
  simp only [ht, hp, hs, hb, hr]
  simp

/-- C8 (terminal-state finality): attempting to settle a transfer that
is not PENDING returns an error and leaves the entire database unchanged;
and (for a database whose transfer ids are unique, as the PRIMARY KEY
guarantees) whenever a settlement attempt changes the status of any
transfer row, the old status was PENDING and the new status is COMPLETED or
FAILED — so the only transitions ever taken are PENDING → COMPLETED and
PENDING → FAILED, and terminal states are final. -/

theorem C8_terminal_finality (db : DB) (tid : ℤ) (now : ℚ) :
    (∀ t, get_transfer db tid = some t → t.status ≠ "PENDING" →
      settle_transfer_transaction db tid now =
        ((false, some ("Transfer is already " ++ t.status)), db)) ∧
    ((db.transfers.map Transfer.transfer_id).Nodup →
      ∀ (i : ℕ) (told tnew : Transfer),
        db.transfers[i]? = some told →
        ((settle_transfer_transaction db tid now).2).transfers[i]? = some tnew →
        tnew.status ≠ told.status →
        told.status = "PENDING" ∧ (tnew.status = "COMPLETED" ∨ tnew.status = "FAILED")) := by
  constructor
  · intro t ht hp
    exact settle_not_pending_eq db tid now t ht hp
  · intro hnd i told tnew h1 h2 hne
    have hsame : ∀ (l : List Transfer), l = db.transfers →
        l[i]? = some tnew → False := by
      intro l hl hsome
      rw [hl, h1] at hsome
      exact hne (by cases hsome; rfl)
    have key : ∀ (st : String) (extra : Option String) (t : Transfer),
        get_transfer db tid = some t → t.status = "PENDING" →
        (db.transfers.map (fun x =>
          if x.transfer_id = tid then
            { x with status := st, reference := x.reference ++ extra.getD "",
                     completed_at := some now }
          else x))[i]? = some tnew →
        told.status = "PENDING" ∧ tnew.status = st := by
      intro st extra t ht hp hmap
      obtain ⟨hid, hst⟩ :=
        updateTransferRow_status_change db.transfers tid st extra now i told tnew h1 hmap hne
      obtain ⟨htmem, htid⟩ := fetchOne_eq_some ht
      have : told = t :=
        mem_transfer_id_unique hnd (getElem_mem_of_some h1) htmem (hid.trans htid.symm)
      exact ⟨this ▸ hp, hst⟩
    cases hT : get_transfer db tid with
    | none =>
      rw [settle_not_found_eq db tid now hT] at h2
      exact (hsame db.transfers rfl h2).elim
    | some t =>
      by_cases hp : t.status = "PENDING"
      · cases hS : get_account_by_id db t.from_account_id with
        | none =>
          rw [settle_sender_missing_eq db tid now t hT hp hS] at h2
          dsimp only [updateTransferRow] at h2
          obtain ⟨h1', h2'⟩ := key "FAILED" (some " [Error: Sender missing]") t hT hp h2
          exact ⟨h1', Or.inr h2'⟩
        | some sender =>
          by_cases hb : sender.balance < t.amount + t.fee
          · rw [settle_insufficient_eq db tid now t sender hT hp hS hb] at h2
            dsimp only [updateTransferRow] at h2
            obtain ⟨h1', h2'⟩ := key "FAILED" (some " [Error: Insufficient funds]") t hT hp h2
            exact ⟨h1', Or.inr h2'⟩
          · cases hR : get_account_by_id db t.to_account_id with
            | none =>
              rw [settle_recipient_missing_eq db tid now t sender hT hp hS hb hR] at h2
              dsimp only [updateTransferRow] at h2
              obtain ⟨h1', h2'⟩ := key "FAILED" (some " [Error: Recipient missing]") t hT hp h2
              exact ⟨h1', Or.inr h2'⟩
            | some recipient =>
              rw [settle_completed_eq db tid now t sender recipient hT hp hS hb hR] at h2
              dsimp only [updateTransferRow, setAccountBalance] at h2
              obtain ⟨h1', h2'⟩ := key "COMPLETED" none t hT hp h2
              exact ⟨h1', Or.inl h2'⟩
      · rw [settle_not_pending_eq db tid now t hT hp] at h2
        exact (hsame db.transfers rfl h2).elim

/-- Witness for C8: re-settling an already COMPLETED transfer returns an
error and leaves the database untouched. -/
theorem C8_terminal_finality_witness :
    settle_transfer_transaction dbCompleted 1 5 =
      ((false, some ("Transfer is already " ++ "COMPLETED")), dbCompleted) := by
  exact (C8_terminal_finality dbCompleted 1 5).1
    ⟨1, 1001, 1002, 60, 0, "COMPLETED", "", 0, some 0⟩ rfl (by decide)

theorem calculate_fee_nonneg (q : ℚ) : 0 ≤ calculate_fee q := by
  unfold calculate_fee
  split_ifs with h
  · exact le_refl 0
  · have hq : 0 ≤ q := le_of_lt (not_le.mp h)
    have main : ∀ (l : List FeeTier), (∀ t ∈ l, 0 ≤ t.percentage ∧ 0 ≤ t.cap) →
        0 ≤ (feeLoop q l).getD 0 := by
      intro l hl
      induction l with
      | nil => simp [feeLoop]
      | cons t rest ih =>
        by_cases htq : inTier t q
        · simp only [feeLoop, if_pos htq, Option.getD_some]
          refine round2_nonneg (le_min ?_ ?_)
          · exact mul_nonneg hq (hl t (List.mem_cons_self t rest)).1
          · exact (hl t (List.mem_cons_self t rest)).2
        · simp only [feeLoop, if_neg htq]
          exact ih (fun x hx => hl x (List.mem_cons_of_mem t hx))
    refine main FEE_TIERS ?_
    intro t htm
    simp only [FEE_TIERS, List.mem_cons, List.not_mem_nil, or_false] at htm
    rcases htm with rfl | rfl | rfl | rfl | rfl | rfl <;> norm_num

/-- C7 (balance non-negativity): if every account balance is
non-negative and every stored transfer carries a positive amount and a
non-negative fee (the shape `submit_transfer` always creates), then every
committed settlement — the only balance-mutating operation the engine
performs — leaves every balance non-negative; and the fee calculator never
returns a negative fee. -/

theorem C7_balance_nonneg (db : DB) (tid : ℤ) (now : ℚ)
    (hacc : ∀ a ∈ db.accounts, 0 ≤ a.balance)
    (htr : ∀ t ∈ db.transfers, 0 < t.amount ∧ 0 ≤ t.fee) :
    (∀ a ∈ ((settle_transfer_transaction db tid now).2).accounts, 0 ≤ a.balance) ∧
    (∀ q : ℚ, 0 ≤ calculate_fee q) := by
  refine ⟨?_, calculate_fee_nonneg⟩
  cases hT : get_transfer db tid with
  | none => rw [settle_not_found_eq db tid now hT]; exact hacc
  | some t =>
    obtain ⟨htmem, _⟩ := fetchOne_eq_some hT
    by_cases hp : t.status = "PENDING"
    · cases hS : get_account_by_id db t.from_account_id with
      | none =>
        rw [settle_sender_missing_eq db tid now t hT hp hS]
        exact hacc
      | some sender =>
        by_cases hb : sender.balance < t.amount + t.fee
        · rw [settle_insufficient_eq db tid now t sender hT hp hS hb]
          exact hacc
        · cases hR : get_account_by_id db t.to_account_id with
          | none =>
            rw [settle_recipient_missing_eq db tid now t sender hT hp hS hb hR]
            exact hacc
          | some recipient =>
            rw [settle_completed_eq db tid now t sender recipient hT hp hS hb hR]
            obtain ⟨hrmem, _⟩ := fetchOne_eq_some hR
            intro a ha
            dsimp only [updateTransferRow, setAccountBalance] at ha
            rw [List.map_map] at ha
            obtain ⟨a0, ha0mem, rfl⟩ := List.mem_map.mp ha
            dsimp only [Function.comp_apply]
            by_cases h1 : a0.account_id = t.from_account_id
            · rw [if_pos h1]
              by_cases h2 : (if a0.account_id = t.from_account_id then
                  { a0 with balance := round2 (sender.balance - (t.amount + t.fee)) }
                  else a0).account_id = t.to_account_id
              all_goals simp only [if_pos h1] at h2 ⊢
              · rw [if_pos h2]
                refine round2_nonneg ?_
                have := (htr t htmem).1
                have := hacc recipient hrmem
                linarith
              · rw [if_neg h2]
                refine round2_nonneg ?_
                linarith [not_lt.mp hb]
            · rw [if_neg h1]
              by_cases h2 : (if a0.account_id = t.from_account_id then
                  { a0 with balance := round2 (sender.balance - (t.amount + t.fee)) }
                  else a0).account_id = t.to_account_id
              all_goals simp only [if_neg h1] at h2 ⊢
              · rw [if_pos h2]
                refine round2_nonneg ?_
                have := (htr t htmem).1
                have := hacc recipient hrmem
                linarith
              · rw [if_neg h2]
                exact hacc a0 ha0mem
    · rw [settle_not_pending_eq db tid now t hT hp]
      exact hacc

/-- C6 (token expiry): resolving a token fails exactly when no session
holds the token or the current time has reached the session's `expires_at`
(so the token is already invalid at the exact expiry instant); and for a
session just created with expiry `expiry`, validity at any time `t` is
`t < expiry` — the expiry is fixed at creation and never extended by use
(`validate_session` never writes any state in the source). -/

theorem C6_token_expiry (db : DB) (token : String) (now : ℚ) :
    (validate_session db token now = none ↔
      (fetchOne (fun s => s.token = token) db.sessions = none ∨
       ∃ s, fetchOne (fun s => s.token = token) db.sessions = some s ∧
         s.expires_at ≤ now)) ∧
    (∀ s, fetchOne (fun s => s.token = token) db.sessions = some s →
      validate_session db token s.expires_at = none) ∧
    (∀ (uid : ℤ) (expiry t : ℚ),
      fetchOne (fun s => s.token = token) db.sessions = none →
      (validate_session (create_session db uid token expiry) token t = some uid ↔
        t < expiry)) := by
  refine ⟨?_, ?_, ?_⟩
  · unfold validate_session
    cases h : fetchOne (fun s => s.token = token) db.sessions with
    | none => simp
    | some s =>
      dsimp only
      by_cases hlt : now < s.expires_at
      · rw [if_pos hlt]
        constructor
        · intro habs; exact Option.noConfusion habs
        · rintro (hc | ⟨s', hs', hle⟩)
          · exact Option.noConfusion hc
          · cases hs'
            exact absurd hlt (not_lt.mpr hle)
      · rw [if_neg hlt]
        exact ⟨fun _ => Or.inr ⟨s, rfl, not_lt.mp hlt⟩, fun _ => rfl⟩
  · intro s hs
    unfold validate_session
    rw [hs]
    dsimp only
    rw [if_neg (lt_irrefl _)]
  · intro uid expiry t hmiss
    unfold validate_session create_session
    dsimp only
    rw [fetchOne_append, hmiss]
    show (match fetchOne (fun x : Session => x.token = token)
            [({user_id := uid, token := token, expires_at := expiry} : Session)] with
          | some x => if t < x.expires_at then some x.user_id else none
          | none => none) = some uid ↔ t < expiry
    unfold fetchOne
    rw [if_pos rfl]
    dsimp only
    constructor
    · intro hsome
      by_contra hlt
      rw [if_neg hlt] at hsome
      exact Option.noConfusion hsome
    · intro hlt
      rw [if_pos hlt]

/-- Witness for C6: the token is invalid at its exact expiry instant, and a
freshly created session is valid strictly before its expiry. -/
theorem C6_token_expiry_witness :
    validate_session dbSession "tok" 100 = none ∧
    validate_session (create_session dbEmpty 7 "tok" 100) "tok" 99 = some 7 := by
  constructor
  · exact (C6_token_expiry dbSession "tok" 0).2.1 ⟨7, "tok", 100⟩ rfl
  · exact ((C6_token_expiry dbEmpty "tok" 0).2.2 7 100 99 rfl).mpr (by norm_num)

/-- Witness for C7: settling the concrete PENDING transfer of `dbPending`
leaves every balance non-negative, and the fee for 3333.33 is
non-negative. -/

theorem C7_balance_nonneg_witness :
    ((settle_transfer_transaction dbPending 1 0).2.accounts.all
      (fun a => decide (0 ≤ a.balance))) = true ∧
    0 ≤ calculate_fee (3333.33 : ℚ) := by
  have hacc : ∀ a ∈ dbPending.accounts, 0 ≤ a.balance := by
    intro a ha
    simp only [dbPending, List.mem_cons, List.not_mem_nil, or_false] at ha
    rcases ha with rfl | rfl <;> norm_num
  have htr : ∀ t ∈ dbPending.transfers, 0 < t.amount ∧ 0 ≤ t.fee := by
    intro t ht
    simp only [dbPending, List.mem_cons, List.not_mem_nil, or_false] at ht
    rcases ht with rfl
    norm_num
  have h := C7_balance_nonneg dbPending 1 0 hacc htr
  refine ⟨?_, h.2 _⟩
  rw [List.all_eq_true]
  intro a ha
  exact decide_eq_true (h.1 a ha)

/-- C2 (insufficient-funds lifecycle, evaluated at the failing input):
a fully validated transfer of $200.00 against a $100.00 balance is rejected
by the pre-settlement balance check of `submit_transfer` — the call returns
the insufficient-balance error, the database is completely unchanged, and no
transfer record is created (so no PENDING → FAILED transition occurs and a
subsequent `get_transfer` finds nothing), contradicting the claimed
lifecycle and the repository's own `test_19_failed_transfer_persistence`. -/
theorem C2_insufficient_funds_short_circuit :
    (submit_transfer ⟨[]⟩ dbFunds "tok" 1002 200 "rent" 0).1 =
      .err "Insufficient balance. Required" ∧
    (submit_transfer ⟨[]⟩ dbFunds "tok" 1002 200 "rent" 0).2.2 = dbFunds ∧
    get_transfer (submit_transfer ⟨[]⟩ dbFunds "tok" 1002 200 "rent" 0).2.2 1 = none := by
  have hr200 : round2 (200 : ℚ) = 200 := round2_of_isCents ⟨20000, by norm_num⟩
  have hfee : calculate_fee (round2 (200 : ℚ)) = 0 := by
    rw [hr200]
    norm_num [calculate_fee, feeLoop, FEE_TIERS, inTier, round2, roundHalfEven]
  have h := submit_insufficient_eq ⟨[]⟩ dbFunds "tok" 1002 200 "rent" 0 1
    ⟨1001, 1, 100⟩ ⟨1002, 2, 100⟩
    (by norm_num [validate_token, validate_session, fetchOne, dbFunds])
    (by norm_num [get_account_by_user_id, fetchOne, dbFunds])
    (by norm_num) (by decide) rfl
    (by norm_num [get_account_by_id, fetchOne, dbFunds])
    (by decide)
    (by rw [hfee, hr200]; norm_num)
  rw [h]
  exact ⟨rfl, rfl, rfl⟩

/-- C5 counterexample: in the legacy top-level variant
(`src/bas_server.py` login, `src/bdb_server.py` init_database) — cited by
the claim — the stored credential for `"john"` *is* the plaintext password
`"pass123"`, and login succeeds by comparing the supplied secret against it
as plaintext even though the stored credential does not equal the hash of
the supplied secret.  This refutes "the comparison uses a salted/hashed
credential and never the plaintext secret, and the stored credential is
never the plaintext password itself" as a statement about every login
implementation in the repository. -/
theorem C5_plaintext_counterexample :
    (legacy_login dbLegacy "john" "pass123" "tok" 0).1 = (true, "tok") ∧
    (get_user_by_username dbLegacy "john").map User.password_hash = some "pass123" ∧
    sha256_hexdigest "pass123" ≠ "pass123" := by
  refine ⟨?_, ?_, ?_⟩ <;>
    simp [legacy_login, get_user_by_username, dbLegacy, init_users_legacy, init_accounts,
      MOCK_USERS, fetchOne, sha256_hexdigest, create_session]

/-- C5 amended (authentication credential handling, server tier): in
the `src/server/` implementation, `login` succeeds (returning the fresh
token) if and only if the username resolves to a stored user whose stored
credential hash equals the SHA-256 hash of the supplied secret; the
credentials provisioned by `init_database` are the SHA-256 digests of the
mock passwords, never the plaintext passwords themselves. -/

theorem C5_credential_handling_amended :
    (∀ (db : DB) (username password fresh_token : String) (now : ℚ),
      ((login db username password fresh_token now).1).1 = true ↔
        ∃ u, get_user_by_username db username = some u ∧
          u.password_hash = sha256_hexdigest password) ∧
    (∀ (db : DB) (username password fresh_token : String) (now : ℚ),
      ((login db username password fresh_token now).1).1 = true →
        ((login db username password fresh_token now).1).2 = fresh_token) ∧
    (init_users_server.map User.password_hash =
      [sha256_hexdigest "pass123", sha256_hexdigest "pass456"]) ∧
    sha256_hexdigest "pass123" ≠ "pass123" ∧
    sha256_hexdigest "pass456" ≠ "pass456" := by
  have main : ∀ (db : DB) (username password fresh_token : String) (now : ℚ),
      ((login db username password fresh_token now).1).1 = true ↔
        ∃ u, get_user_by_username db username = some u ∧
          u.password_hash = sha256_hexdigest password := by
    intro db username password fresh_token now
    unfold login
    cases h : get_user_by_username db username with
    | none => simp
    | some u =>
      dsimp only
      by_cases heq : u.password_hash = sha256_hexdigest password
      · rw [if_neg (not_not_intro heq)]
        exact ⟨fun _ => ⟨u, rfl, heq⟩, fun _ => rfl⟩
      · rw [if_pos heq]
        constructor
        · intro habs; exact Bool.noConfusion habs
        · rintro ⟨u', hu', hhash⟩
          cases hu'
          exact absurd hhash heq
  refine ⟨main, ?_, ?_, ?_, ?_⟩
  · intro db username password fresh_token now hsucc
    unfold login at hsucc ⊢
    cases h : get_user_by_username db username with
    | none =>
      rw [h] at hsucc
      exact Bool.noConfusion hsucc
    | some u =>
      rw [h] at hsucc
      dsimp only at hsucc ⊢
      by_cases heq : u.password_hash = sha256_hexdigest password
      · rw [if_neg (not_not_intro heq)]
      · rw [if_pos heq] at hsucc
        exact Bool.noConfusion hsucc
  · simp [init_users_server, MOCK_USERS, sha256_hexdigest]
  · simp [sha256_hexdigest]
  · simp [sha256_hexdigest]

/-- Witness for the amended C5: logging in as `"john"` with `"pass123"`
against the hashed credential store succeeds. -/

theorem C5_credential_handling_amended_witness :
    ((login dbServer "john" "pass123" "tok" 0).1).1 = true := by
  refine (C5_credential_handling_amended.1 dbServer "john" "pass123" "tok" 0).mpr
    ⟨⟨1, "john", sha256_hexdigest "pass123"⟩, ?_, rfl⟩
  simp [get_user_by_username, dbServer, init_users_server, MOCK_USERS, fetchOne]

/-! ## Idempotency guard lemmas -/

theorem dictGet_recordFingerprint (bas : BAS) (key : TransferKey) (now : ℚ) :
    dictGet (recordFingerprint bas key now).recent_transfers key = some now := by
  unfold recordFingerprint dictGet dictInsert
  rw [List.filter_append, fetchOne_append]
  rw [fetchOne_of_forall_not ?notleft]
  case notleft =>
    intro x hx
    have hx1 := (List.mem_filter.mp hx).1
    have hx2 := (List.mem_filter.mp hx1).2
    simpa using hx2
  norm_num [IDEMPOTENCY_WINDOW, List.filter, fetchOne]

/-- Every path of `submit_transfer` past the idempotency gate leaves the
in-memory idempotency map equal to the freshly recorded, freshly swept
map. -/

theorem submit_records_eq (bas : BAS) (db : DB) (token : String) (rid : ℤ)
    (amount : ℚ) (reference : String) (now : ℚ) (uid : ℤ) (sender : Account)
    (hauth : validate_token db token now = some uid)
    (hsender : get_account_by_user_id db uid = some sender)
    (hamt : ¬ (amount ≤ 0)) (href : ¬ (reference.length > 200))
    (hdup : isDuplicate bas ⟨uid, rid, round2 amount, reference⟩ now = false) :
    (submit_transfer bas db token rid amount reference now).2.1 =
      recordFingerprint bas ⟨uid, rid, round2 amount, reference⟩ now := by
  unfold submit_transfer
  simp only [hauth, hsender, if_neg hamt, if_neg href, hdup, if_false, Bool.false_eq_true]
  cases get_account_by_id db rid with
  | none => rfl
  | some r =>
    dsimp only
    split_ifs <;> rfl

/-- C10 (idempotency map freshness): after every `submit_transfer` call
that records a fingerprint (one that passes authentication, amount and
reference validation and is not rejected as a duplicate), every entry
remaining in `recent_transfers` has a last-seen timestamp strictly within
`IDEMPOTENCY_WINDOW` of that call's current time: entries as old as the
window never survive a recording call. -/

theorem C10_idempotency_freshness (bas : BAS) (db : DB) (token : String) (rid : ℤ)
    (amount : ℚ) (reference : String) (now : ℚ) (uid : ℤ) (sender : Account)
    (hauth : validate_token db token now = some uid)
    (hsender : get_account_by_user_id db uid = some sender)
    (hamt : ¬ (amount ≤ 0)) (href : ¬ (reference.length > 200))
    (hdup : isDuplicate bas ⟨uid, rid, round2 amount, reference⟩ now = false) :
    ∀ kv ∈ ((submit_transfer bas db token rid amount reference now).2.1).recent_transfers,
      now - kv.2 < IDEMPOTENCY_WINDOW := by
  intro kv hkv
  rw [submit_records_eq bas db token rid amount reference now uid sender
    hauth hsender hamt href hdup] at hkv
  unfold recordFingerprint at hkv
  have := (List.mem_filter.mp hkv).2
  simpa using this

/-- Witness for C10: a concrete recording call (one that fails with
insufficient funds) leaves only fresh entries in the idempotency map. -/

theorem C10_idempotency_freshness_witness :
    (((submit_transfer ⟨[]⟩ dbFunds "tok" 1002 200 "rent" 0).2.1).recent_transfers.all
      (fun kv => decide ((0 : ℚ) - kv.2 < IDEMPOTENCY_WINDOW))) = true := by
  have h := C10_idempotency_freshness ⟨[]⟩ dbFunds "tok" 1002 200 "rent" 0 1 ⟨1001, 1, 100⟩
    (by norm_num [validate_token, validate_session, fetchOne, dbFunds])
    (by norm_num [get_account_by_user_id, fetchOne, dbFunds])
    (by norm_num) (by decide) rfl
  rw [List.all_eq_true]
  intro kv hkv
  exact decide_eq_true (h kv hkv)

/-- C9 (a failed attempt still arms the idempotency window): a
`submit_transfer` call that passes token, amount and reference validation
and the idempotency gate, but then fails because the recipient account does
not exist, because it is a self-transfer, or because the balance snapshot
cannot cover `amount + fee`, records its fingerprint before those checks
run and leaves the database (hence the transfer table) untouched; an
identical resubmission strictly less than `IDEMPOTENCY_WINDOW` seconds
later is rejected as a duplicate even though the first attempt produced no
transfer. -/

theorem C9_failed_attempt_arms_window (bas : BAS) (db : DB) (token : String) (rid : ℤ)
    (amount : ℚ) (reference : String) (t1 t2 : ℚ) (uid : ℤ) (sender : Account)
    (hauth1 : validate_token db token t1 = some uid)
    (hsender : get_account_by_user_id db uid = some sender)
    (hamt : ¬ (amount ≤ 0)) (href : ¬ (reference.length > 200))
    (hdup : isDuplicate bas ⟨uid, rid, round2 amount, reference⟩ t1 = false)
    (hfail : get_account_by_id db rid = none ∨
             (∃ r, get_account_by_id db rid = some r ∧ sender.account_id = rid) ∨
             (∃ r, get_account_by_id db rid = some r ∧ sender.account_id ≠ rid ∧
               sender.balance < round2 amount + calculate_fee (round2 amount)))
    (hauth2 : validate_token db token t2 = some uid)
    (hwin : t2 - t1 < IDEMPOTENCY_WINDOW) :
    (∃ msg, (submit_transfer bas db token rid amount reference t1).1 =
      SubmitResult.err msg) ∧
    (submit_transfer bas db token rid amount reference t1).2.2 = db ∧
    (submit_transfer (submit_transfer bas db token rid amount reference t1).2.1
        db token rid amount reference t2).1 =
      .err "Duplicate transfer detected. Please wait a few seconds before trying again." ∧
    (submit_transfer (submit_transfer bas db token rid amount reference t1).2.1
        db token rid amount reference t2).2.2 = db := by
  have hdup2 : isDuplicate (recordFingerprint bas ⟨uid, rid, round2 amount, reference⟩ t1)
      ⟨uid, rid, round2 amount, reference⟩ t2 = true := by
    unfold isDuplicate
    rw [dictGet_recordFingerprint]
    exact decide_eq_true hwin
  have hbas1 : (submit_transfer bas db token rid amount reference t1).2.1 =
      recordFingerprint bas ⟨uid, rid, round2 amount, reference⟩ t1 :=
    submit_records_eq bas db token rid amount reference t1 uid sender
      hauth1 hsender hamt href hdup
  have hsecond := submit_duplicate_eq
    (recordFingerprint bas ⟨uid, rid, round2 amount, reference⟩ t1)
    db token rid amount reference t2 uid sender hauth2 hsender hamt href hdup2
  rcases hfail with hnone | ⟨r, hr, hself⟩ | ⟨r, hr, hself, hbal⟩
  · rw [submit_recipient_missing_eq bas db token rid amount reference t1 uid sender
      hauth1 hsender hamt href hdup hnone]
    dsimp only
    rw [hsecond]
    exact ⟨⟨_, rfl⟩, rfl, rfl, rfl⟩
  · rw [submit_self_eq bas db token rid amount reference t1 uid sender r
      hauth1 hsender hamt href hdup hr hself]
    dsimp only
    rw [hsecond]
    exact ⟨⟨_, rfl⟩, rfl, rfl, rfl⟩
  · rw [submit_insufficient_eq bas db token rid amount reference t1 uid sender r
      hauth1 hsender hamt href hdup hr hself hbal]
    dsimp only
    rw [hsecond]
    exact ⟨⟨_, rfl⟩, rfl, rfl, rfl⟩

/-- Witness for C9: a transfer to a nonexistent account 9999 fails without
creating a transfer, yet an identical retry 3 seconds later is rejected as
a duplicate. -/

theorem C9_failed_attempt_arms_window_witness :
    (submit_transfer ⟨[]⟩ dbFunds "tok" 9999 50 "x" 0).2.2 = dbFunds ∧
    (submit_transfer (submit_transfer ⟨[]⟩ dbFunds "tok" 9999 50 "x" 0).2.1
        dbFunds "tok" 9999 50 "x" 3).1 =
      .err "Duplicate transfer detected. Please wait a few seconds before trying again." := by
  have h := C9_failed_attempt_arms_window ⟨[]⟩ dbFunds "tok" 9999 50 "x" 0 3 1 ⟨1001, 1, 100⟩
    (by norm_num [validate_token, validate_session, fetchOne, dbFunds])
    (by norm_num [get_account_by_user_id, fetchOne, dbFunds])
    (by norm_num) (by decide) rfl
    (Or.inl (by norm_num [get_account_by_id, fetchOne, dbFunds]))
    (by norm_num [validate_token, validate_session, fetchOne, dbFunds])
    (by norm_num [IDEMPOTENCY_WINDOW])
  exact ⟨h.2.1, h.2.2.1⟩

set_option maxHeartbeats 2000000 in
/-- C4 counterexample: with a sender balance of $100.00, a first
transfer of $60.00 succeeds; an identical submission 6 seconds later —
after the 5-second idempotency window has passed — does *not* succeed
again: it fails with the insufficient-balance error, because the first
transfer consumed the funds.  This refutes the unconditional "an identical
submission made after the 5-second window has passed succeeds again". -/

theorem C4_window_counterexample :
    (submit_transfer ⟨[]⟩ dbFunds "tok" 1002 60 "" 0).1 = .ok 1 60 0 ∧
    IDEMPOTENCY_WINDOW ≤ (6 : ℚ) - 0 ∧
    (submit_transfer (submit_transfer ⟨[]⟩ dbFunds "tok" 1002 60 "" 0).2.1
        (submit_transfer ⟨[]⟩ dbFunds "tok" 1002 60 "" 0).2.2 "tok" 1002 60 "" 6).1 =
      .err "Insufficient balance. Required" := by
  refine ⟨?_, by norm_num [IDEMPOTENCY_WINDOW], ?_⟩ <;>
    norm_num [submit_transfer, validate_token, validate_session, get_account_by_user_id,
      get_account_by_id, fetchOne, dictGet, dictInsert, isDuplicate, recordFingerprint,
      calculate_fee, feeLoop, FEE_TIERS, inTier, round2, roundHalfEven,
      IDEMPOTENCY_WINDOW, dbFunds, create_transfer, settle_transfer_transaction,
      get_transfer, updateTransferRow, setAccountBalance]

theorem isCents_calculate_fee (q : ℚ) : IsCents (calculate_fee q) := by
  unfold calculate_fee
  split_ifs
  · exact ⟨0, by norm_num⟩
  · have : ∀ (l : List FeeTier), IsCents ((feeLoop q l).getD 0) := by
      intro l
      induction l with
      | nil => exact ⟨0, by norm_num [feeLoop]⟩
      | cons t rest ih =>
        by_cases htq : inTier t q
        · simp only [feeLoop, if_pos htq, Option.getD_some]
          exact isCents_round2 _
        · simp only [feeLoop, if_neg htq]
          exact ih
    exact this FEE_TIERS

theorem get_account_by_user_id_setBalance (db : DB) (aid : ℤ) (b : ℚ) (uid : ℤ) :
    get_account_by_user_id (setAccountBalance db aid b) uid =
      (get_account_by_user_id db uid).map
        (fun a => if a.account_id = aid then { a with balance := b } else a) := by
  unfold get_account_by_user_id setAccountBalance
  exact fetchOne_map _ (fun x => by by_cases h : x.account_id = aid <;> simp [h]) _

theorem get_account_by_user_id_updateTransferRow (db : DB) (tid : ℤ) (st : String)
    (extra : Option String) (now : ℚ) (uid : ℤ) :
    get_account_by_user_id (updateTransferRow db tid st extra now) uid =
      get_account_by_user_id db uid := rfl

theorem get_account_by_user_id_create_transfer (db : DB) (f t : ℤ) (a fe : ℚ)
    (r st : String) (now : ℚ) (uid : ℤ) :
    get_account_by_user_id (create_transfer db f t a fe r st now).2 uid =
      get_account_by_user_id db uid := rfl

theorem get_account_by_id_create_transfer (db : DB) (f t : ℤ) (a fe : ℚ)
    (r st : String) (now : ℚ) (j : ℤ) :
    get_account_by_id (create_transfer db f t a fe r st now).2 j =
      get_account_by_id db j := rfl

/-- C4 amended (idempotency window): under the stated request and
database well-formedness conditions, a first submission at `t1` succeeds;
an identical submission at `t2` with `t2 − t1 < 5 s` is rejected with the
duplicate-request error, creating no transfer record and changing no state
at all; and an identical submission at `t3` with `t3 − t1 ≥ 5 s` succeeds
again *provided* the sender's remaining balance still covers
`amount + fee` (hypothesis `hbal2`) and the session is still valid —
the provisos the counterexample forces. -/

theorem C4_idempotency_window_amended
    (bas : BAS) (db : DB) (token : String) (rid : ℤ) (amount : ℚ) (reference : String)
    (t1 t2 t3 : ℚ) (uid : ℤ) (sender recipient : Account)
    (hauth1 : validate_token db token t1 = some uid)
    (hauth2 : validate_token db token t2 = some uid)
    (hauth3 : validate_token db token t3 = some uid)
    (hsender : get_account_by_user_id db uid = some sender)
    (hamt : ¬ (amount ≤ 0)) (href : ¬ (reference.length > 200))
    (hdup : isDuplicate bas ⟨uid, rid, round2 amount, reference⟩ t1 = false)
    (hrec : get_account_by_id db rid = some recipient)
    (hself : ¬ (sender.account_id = rid))
    (hsid : get_account_by_id db sender.account_id = some sender)
    (hfresh : ∀ t ∈ db.transfers, t.transfer_id < db.nextTransferId)
    (hcents : IsCents sender.balance)
    (hbal2 : round2 amount + calculate_fee (round2 amount) ≤
      sender.balance - (round2 amount + calculate_fee (round2 amount)))
    (hw2 : t2 - t1 < IDEMPOTENCY_WINDOW)
    (hw3 : IDEMPOTENCY_WINDOW ≤ t3 - t1) :
    (submit_transfer bas db token rid amount reference t1).1 =
      .ok db.nextTransferId (round2 amount) (calculate_fee (round2 amount)) ∧
    (submit_transfer (submit_transfer bas db token rid amount reference t1).2.1
        (submit_transfer bas db token rid amount reference t1).2.2
        token rid amount reference t2) =
      (.err "Duplicate transfer detected. Please wait a few seconds before trying again.",
       (submit_transfer bas db token rid amount reference t1).2.1,
       (submit_transfer bas db token rid amount reference t1).2.2) ∧
    (submit_transfer
        (submit_transfer (submit_transfer bas db token rid amount reference t1).2.1
          (submit_transfer bas db token rid amount reference t1).2.2
          token rid amount reference t2).2.1
        (submit_transfer (submit_transfer bas db token rid amount reference t1).2.1
          (submit_transfer bas db token rid amount reference t1).2.2
          token rid amount reference t2).2.2
        token rid amount reference t3).1 =
      .ok (db.nextTransferId + 1) (round2 amount) (calculate_fee (round2 amount)) := by
  have hamt0 : (0 : ℚ) < amount := not_le.mp hamt
  have ha0 : 0 ≤ round2 amount := round2_nonneg (le_of_lt hamt0)
  have hf0 : 0 ≤ calculate_fee (round2 amount) := calculate_fee_nonneg _
  have hbal1 : ¬ (sender.balance < round2 amount + calculate_fee (round2 amount)) := by
    rw [not_lt]; linarith
  have hfr : ∀ t ∈ db.transfers, t.transfer_id ≠ db.nextTransferId :=
    fun t ht => ne_of_lt (hfresh t ht)
  have h1 := submit_ok_eq bas db token rid amount reference t1 uid sender recipient
    hauth1 hsender hamt href hdup hrec hself hbal1 hsid hfr
  rw [h1]
  dsimp only
  set bas1 := recordFingerprint bas ⟨uid, rid, round2 amount, reference⟩ t1 with hbas1
  set dbS := updateTransferRow
    (setAccountBalance
      (setAccountBalance
        (create_transfer db sender.account_id rid (round2 amount)
          (calculate_fee (round2 amount)) reference "PENDING" t1).2
        sender.account_id
        (round2 (sender.balance - (round2 amount + calculate_fee (round2 amount)))))
      rid (round2 (recipient.balance + round2 amount)))
    db.nextTransferId "COMPLETED" none t1 with hdbS
  have hca : IsCents (round2 amount) := isCents_round2 amount
  have hcf : IsCents (calculate_fee (round2 amount)) := isCents_calculate_fee _
  have hbal_exact :
      round2 (sender.balance - (round2 amount + calculate_fee (round2 amount))) =
        sender.balance - (round2 amount + calculate_fee (round2 amount)) :=
    round2_of_isCents (hcents.sub (hca.add hcf))
  have hridrec : recipient.account_id = rid := (fetchOne_eq_some hrec).2
  have hauth2S : validate_token dbS token t2 = some uid := hauth2
  have hauth3S : validate_token dbS token t3 = some uid := hauth3
  have hsender2 : get_account_by_user_id dbS uid =
      some (⟨sender.account_id, sender.user_id,
        round2 (sender.balance - (round2 amount + calculate_fee (round2 amount)))⟩
          : Account) := by
    rw [hdbS, get_account_by_user_id_updateTransferRow, get_account_by_user_id_setBalance,
      get_account_by_user_id_setBalance, get_account_by_user_id_create_transfer, hsender]
    simp only [Option.map_some']
    simp [hself]
  have hsid2 : get_account_by_id dbS sender.account_id =
      some (⟨sender.account_id, sender.user_id,
        round2 (sender.balance - (round2 amount + calculate_fee (round2 amount)))⟩
          : Account) := by
    rw [hdbS, get_account_updateTransferRow, get_account_setBalance,
      get_account_setBalance, get_account_by_id_create_transfer, hsid]
    simp only [Option.map_some']
    simp [hself]
  have hrec2 : get_account_by_id dbS rid =
      some (⟨recipient.account_id, recipient.user_id,
        round2 (recipient.balance + round2 amount)⟩ : Account) := by
    rw [hdbS, get_account_updateTransferRow, get_account_setBalance,
      get_account_setBalance, get_account_by_id_create_transfer, hrec]
    simp only [Option.map_some']
    have hrs2 : ¬ (rid = sender.account_id) := fun hc => hself hc.symm
    simp [hrs2, hridrec]
  have hfresh2 : ∀ t ∈ dbS.transfers, t.transfer_id ≠ dbS.nextTransferId := by
    rw [hdbS]
    intro t ht
    dsimp only [updateTransferRow, setAccountBalance, create_transfer] at ht ⊢
    rw [List.mem_map] at ht
    obtain ⟨t0, ht0, rfl⟩ := ht
    rw [List.mem_append] at ht0
    have hid : ∀ (x : Transfer),
        ((if x.transfer_id = db.nextTransferId then
            { x with status := "COMPLETED",
                     reference := x.reference ++ (none : Option String).getD "",
                     completed_at := some t1 }
          else x) : Transfer).transfer_id = x.transfer_id := by
      intro x
      by_cases h : x.transfer_id = db.nextTransferId <;> simp [h]
    rw [hid t0]
    cases ht0 with
    | inl h => have := hfresh t0 h; omega
    | inr h =>
      simp only [List.mem_cons, List.not_mem_nil, or_false] at h
      subst h
      dsimp only
      omega
  have hdup2 : isDuplicate bas1 ⟨uid, rid, round2 amount, reference⟩ t2 = true := by
    rw [hbas1]
    unfold isDuplicate
    rw [dictGet_recordFingerprint]
    exact decide_eq_true hw2
  have hdup3 : isDuplicate bas1 ⟨uid, rid, round2 amount, reference⟩ t3 = false := by
    rw [hbas1]
    unfold isDuplicate
    rw [dictGet_recordFingerprint]
    exact decide_eq_false (not_lt.mpr hw3)
  have h2 := submit_duplicate_eq bas1 dbS token rid amount reference t2 uid
    (⟨sender.account_id, sender.user_id,
      round2 (sender.balance - (round2 amount + calculate_fee (round2 amount)))⟩
        : Account)
    hauth2S hsender2 hamt href hdup2
  refine ⟨rfl, h2, ?_⟩
  rw [h2]
  dsimp only
  have hbal3 : ¬ ((⟨sender.account_id, sender.user_id,
      round2 (sender.balance - (round2 amount + calculate_fee (round2 amount)))⟩
        : Account).balance < round2 amount + calculate_fee (round2 amount)) := by
    dsimp only
    rw [hbal_exact, not_lt]
    exact hbal2
  have h3 := submit_ok_eq bas1 dbS token rid amount reference t3 uid
    (⟨sender.account_id, sender.user_id,
      round2 (sender.balance - (round2 amount + calculate_fee (round2 amount)))⟩
        : Account)
    (⟨recipient.account_id, recipient.user_id,
      round2 (recipient.balance + round2 amount)⟩ : Account)
    hauth3S hsender2 hamt href hdup3 hrec2 hself hbal3 hsid2 hfresh2
  rw [h3]
  rfl

/-- Witness for the amended C4: first call at t=0 succeeds, the identical
call at t=2 is rejected as a duplicate with all state unchanged, and the
identical call at t=6 (past the window, balance still sufficient) succeeds
again. -/
theorem C4_idempotency_window_amended_witness :
    (submit_transfer ⟨[]⟩ dbRich "tok" 1002 60 "" 0).1 =
      .ok dbRich.nextTransferId (round2 60) (calculate_fee (round2 60)) ∧
    (submit_transfer (submit_transfer ⟨[]⟩ dbRich "tok" 1002 60 "" 0).2.1
        (submit_transfer ⟨[]⟩ dbRich "tok" 1002 60 "" 0).2.2 "tok" 1002 60 "" 2).1 =
      .err "Duplicate transfer detected. Please wait a few seconds before trying again." ∧
    (submit_transfer
        (submit_transfer (submit_transfer ⟨[]⟩ dbRich "tok" 1002 60 "" 0).2.1
          (submit_transfer ⟨[]⟩ dbRich "tok" 1002 60 "" 0).2.2 "tok" 1002 60 "" 2).2.1
        (submit_transfer (submit_transfer ⟨[]⟩ dbRich "tok" 1002 60 "" 0).2.1
          (submit_transfer ⟨[]⟩ dbRich "tok" 1002 60 "" 0).2.2 "tok" 1002 60 "" 2).2.2
        "tok" 1002 60 "" 6).1 =
      .ok (dbRich.nextTransferId + 1) (round2 60) (calculate_fee (round2 60)) := by
  have h60 : round2 (60 : ℚ) = 60 := round2_of_isCents ⟨6000, by norm_num⟩
  have hf60 : calculate_fee ((60 : ℚ)) = 0 := by
    norm_num [calculate_fee, feeLoop, FEE_TIERS, inTier, round2, roundHalfEven]
  have h := C4_idempotency_window_amended ⟨[]⟩ dbRich "tok" 1002 60 "" 0 2 6 1
    ⟨1001, 1, 1000⟩ ⟨1002, 2, 100⟩
    (by norm_num [validate_token, validate_session, fetchOne, dbRich])
    (by norm_num [validate_token, validate_session, fetchOne, dbRich])
    (by norm_num [validate_token, validate_session, fetchOne, dbRich])
    (by norm_num [get_account_by_user_id, fetchOne, dbRich])
    (by norm_num) (by decide) rfl
    (by norm_num [get_account_by_id, fetchOne, dbRich])
    (by decide)
    (by norm_num [get_account_by_id, fetchOne, dbRich])
    (by simp [dbRich])
    ⟨100000, by norm_num⟩
    (by rw [h60, hf60]; norm_num)
    (by norm_num [IDEMPOTENCY_WINDOW])
    (by norm_num [IDEMPOTENCY_WINDOW])
  refine ⟨h.1, ?_, h.2.2⟩
  rw [h.2.1]
